import Mathlib

/-!
Verification development for the `OverlapTomographicReconstruction` class of
`py4DSTEM/process/phase/iterative_overlap_tomography.py`.

The development shallowly embeds the parts of the class needed by the claims:

* the argument-validation prologue of `reconstruct` (lines 1374-1546),
  including the method dispatch (lines 1376-1451), the verbose block
  (lines 1453-1500), batching (lines 1504-1507), the `store_iterations` and
  `reset` handling (lines 1510-1532) and the probe-support-mask
  initialization (lines 1535-1546);
* the control-flow skeleton of `preprocess` (lines 286-617);
* the Fourier-optics array operators: `_precompute_propagator_arrays`
  (lines 177-232), `_propagate_array` (lines 234-252),
  `_gradient_descent_fourier_projection` (lines 663-700),
  `_projection_sets_fourier_projection` (lines 702-770),
  `_gradient_descent_adjoint` (lines 835-940),
  `_object_positivity_constraint` (lines 1111-1127),
  `_object_butterworth_constraint` (lines 1152-1184) and
  `_constraints` (lines 1186-1272).

Python floats are modelled as exact rationals (in the control-flow world)
or as real numbers (in the array world); numpy `fft2`/`ifft2`/`fftn` are
modelled as the exact discrete Fourier transform they approximate.
Scipy/cupy helpers (`gaussian_filter`) and base-class helpers that are not
part of this file (`_sum_overlapping_patches_bincounts`, the probe and
position constraints) are modelled as injected parameters, mirroring the
source's device-polymorphic injection of `self._xp`, `self._gaussian_filter`
and friends.
-/

/-- Python runtime errors that the embedded code can raise.  Each constructor
stands for one concrete raise site (or runtime failure mode) in
`iterative_overlap_tomography.py`. -/
inductive PyErr where
  /-- line 1378: `reconstruction_parameter must be a list of three numbers`. -/
  | valueErrorGeneralizedProjectionShape
  /-- lines 1393 and 1405: `reconstruction_parameter must be between 0-1.` -/
  | valueErrorParameterRange01
  /-- line 1417: `reconstruction_parameter must be between 0-2.` -/
  | valueErrorParameterRange02
  /-- line 1443: `reconstruction_method must be one of ...`. -/
  | valueErrorUnknownMethod
  /-- line 1456: stochastic batching is inconsistent with projection-set methods. -/
  | valueErrorStochasticProjectionSets
  /-- line 525 (`preprocess`): ComplexProbe gpts do not match the region of interest. -/
  | valueErrorProbeGptsMismatch
  /-- comparing a Python list against a float, or unpacking `None`. -/
  | typeError
  /-- line 766: the name `overlap` is not bound in
  `_projection_sets_fourier_projection` (its parameter is named
  `propagated_probes`), so evaluating `projection_a * overlap[-1]` raises
  `NameError`. -/
  | nameErrorOverlap
  /-- reading `self._exit_waves` when the attribute was never assigned. -/
  | attributeErrorExitWaves
  deriving DecidableEq

/-- The dynamically-typed `reconstruction_parameter` argument: either a scalar
or a list of three numbers (floats modelled as exact rationals). -/
inductive RParam where
  | scalar (v : ℚ)
  | triple (a b c : ℚ)
  deriving DecidableEq

/-- The configuration produced by the method-dispatch block of `reconstruct`
(lines 1376-1451): the `use_projection_scheme` flag, the three projection
coefficients, and the (possibly `None`-reassigned) `step_size` and
`reconstruction_parameter` local variables. -/
structure MethodConfig where
  useProjectionScheme : Bool
  projection_a : Option ℚ
  projection_b : Option ℚ
  projection_c : Option ℚ
  step_size : Option ℚ
  reconstruction_parameter : Option RParam
  deriving DecidableEq

/-- Embedding of the `reconstruction_method` dispatch of `reconstruct`
(lines 1376-1451).  `method` is compared against the same string literals as
in the source; `param` is the `reconstruction_parameter` argument and
`stepSize` the incoming `step_size` argument.  Ranges are checked exactly as
in the source (`param < 0.0 or param > 1.0`, etc.); comparing a list against
a float raises `TypeError`, as in Python. -/
def validate_reconstruction_method (method : String) (param : RParam) (stepSize : ℚ) :
    Except PyErr MethodConfig :=
  if method == "generalized-projection" then
    match param with
    | RParam.triple a b c =>
        Except.ok ⟨true, some a, some b, some c, none, some param⟩
    | RParam.scalar _ => Except.error PyErr.valueErrorGeneralizedProjectionShape
  else if method == "DM_AP" || method == "difference-map_alternating-projections" then
    match param with
    | RParam.scalar v =>
        if v < 0 ∨ 1 < v then Except.error PyErr.valueErrorParameterRange01
        else Except.ok ⟨true, some (-v), some 1, some (1 + v), none, some param⟩
    | RParam.triple _ _ _ => Except.error PyErr.typeError
  else if method == "RAAR" || method == "relaxed-averaged-alternating-reflections" then
    match param with
    | RParam.scalar v =>
        if v < 0 ∨ 1 < v then Except.error PyErr.valueErrorParameterRange01
        else Except.ok ⟨true, some (1 - 2 * v), some v, some 2, none, some param⟩
    | RParam.triple _ _ _ => Except.error PyErr.typeError
  else if method == "RRR" || method == "relax-reflect-reflect" then
    match param with
    | RParam.scalar v =>
        if v < 0 ∨ 2 < v then Except.error PyErr.valueErrorParameterRange02
        else Except.ok ⟨true, some (-v), some v, some 2, none, some param⟩
    | RParam.triple _ _ _ => Except.error PyErr.typeError
  else if method == "SUPERFLIP" || method == "charge-flipping" then
    Except.ok ⟨true, some 0, some 1, some 2, none, none⟩
  else if method == "GD" || method == "gradient-descent" then
    Except.ok ⟨false, none, none, none, some stepSize, none⟩
  else Except.error PyErr.valueErrorUnknownMethod

/-- The slice of instance state that the `reconstruct` prologue
(lines 1453-1546) reads or mutates, plus the attributes the main loop needs
before its first `self._exit_waves` read.  `α` abstracts the backend array
payloads (object volume, probe field, position array).  An attribute that may
be missing (`hasattr` in the source) is an `Option`; `_exit_waves` may also be
assigned `None`, hence the nested `Option`. -/
structure ReconState (α : Type) where
  object : α
  probe : α
  positions_px_all : α
  object_initial : α
  probe_initial : α
  positions_px_initial_all : α
  exit_waves_attr : Option (Option α)
  error_attr : Option ℚ
  object_iterations_attr : Option (List α)
  probe_iterations_attr : Option (List α)
  error_iterations_attr : Option (List α)
  rng_seeded : Bool
  probe_support_mask_set : Bool
  verbose : Bool
  num_diffraction_patterns : ℕ
  num_tilts : ℕ
  first_tilt_num_patterns : ℕ
  deriving DecidableEq

/-- The arguments of `reconstruct` that its prologue inspects. -/
structure ReconArgs where
  max_iter : ℕ
  reconstruction_method : String
  reconstruction_parameter : RParam
  max_batch_size : Option ℕ
  stepSize : ℚ
  store_iterations : Bool
  reset : Option Bool
  deriving DecidableEq

/-- The default `reconstruct` arguments
(`max_iter=64, reconstruction_method="gradient-descent",
reconstruction_parameter=1.0, max_batch_size=None, step_size=0.9,
store_iterations=False, reset=None`). -/
def defaultReconArgs : ReconArgs :=
  ⟨64, "gradient-descent", RParam.scalar 1, none, 9 / 10, false, none⟩

/-- Outcome of running the prologue of `reconstruct`: either an exception was
raised (carrying the instance state at the moment of the raise — Python
attribute mutations made before a raise persist), or the prologue completed,
yielding the updated state, the method configuration and the effective
`max_batch_size`. -/
inductive PrologueOutcome (α : Type) where
  | raised (st : ReconState α) (err : PyErr)
  | ok (st : ReconState α) (config : MethodConfig) (maxBatch : ℕ)
  deriving DecidableEq

/-- Embedding of the prologue of `reconstruct` (lines 1374-1546), in source
order: method dispatch and validation (lines 1376-1451); the verbose block
(lines 1453-1500) whose only non-print effect is the raise at line 1456 for
`max_batch_size is not None` together with a projection-set method — a raise
that is reachable only when `self._verbose` is true; batching (lines
1504-1507: seed the RNG if `max_batch_size is not None`, else replace it by
`self._num_diffraction_patterns`); `store_iterations` initialization (lines
1510-1513); the `reset` branch (lines 1515-1532); and the probe-support-mask
computation (lines 1535-1546), abstracted to a flag since its numeric content
is not claim-relevant. -/
def reconstructPrologue {α : Type} [DecidableEq α] (args : ReconArgs) (st : ReconState α) :
    PrologueOutcome α :=
  match validate_reconstruction_method args.reconstruction_method
      args.reconstruction_parameter args.stepSize with
  | Except.error e => PrologueOutcome.raised st e
  | Except.ok config =>
    if st.verbose ∧ args.max_batch_size.isSome ∧ config.useProjectionScheme then
      PrologueOutcome.raised st PyErr.valueErrorStochasticProjectionSets
    else
      let st := match args.max_batch_size with
        | some _ => { st with rng_seeded := true }
        | none => st
      let maxBatch := match args.max_batch_size with
        | some b => b
        | none => st.num_diffraction_patterns
      let st :=
        if args.store_iterations ∧
            (st.object_iterations_attr = none ∨ args.reset = some true) then
          { st with object_iterations_attr := some [],
                    probe_iterations_attr := some [],
                    error_iterations_attr := some [] }
        else st
      let st := match args.reset with
        | some true =>
            { st with object := st.object_initial,
                      probe := st.probe_initial,
                      positions_px_all := st.positions_px_initial_all,
                      exit_waves_attr := some none }
        | none =>
            if st.error_attr.isSome then st
            else { st with exit_waves_attr := some none }
        | some false => st
      let st := { st with probe_support_mask_set := true }
      PrologueOutcome.ok st config maxBatch

/-- Outcome of running `reconstruct` up to (and including) the first read of
`self._exit_waves` inside the main loop. -/
inductive RunOutcome (α : Type) where
  | raised (st : ReconState α) (err : PyErr)
  | reachedForward (st : ReconState α) (exitWaves : Option α)
  | noIterations (st : ReconState α)
  deriving DecidableEq

/-- Embedding of `reconstruct` from its prologue up to the first evaluation of
`self._exit_waves` (line 1635, the argument of the first `self._forward`
call).  The main loop reaches that read on the first batch of the first tilt
of the first iteration whenever `max_iter`, the number of tilts and the
number of patterns in the first tilt are all positive; the intervening array
steps (rotate, resample, shuffle, patch-index extraction, lines 1561-1621)
are total numeric computations on attributes that `preprocess` always
assigns, so they are abstracted away.  Reading `self._exit_waves` when the
attribute was never assigned raises `AttributeError`. -/
def reconstructFirstExitWavesRead {α : Type} [DecidableEq α] (args : ReconArgs) (st : ReconState α) :
    RunOutcome α :=
  match reconstructPrologue args st with
  | PrologueOutcome.raised st e => RunOutcome.raised st e
  | PrologueOutcome.ok st _ _ =>
    if 0 < args.max_iter ∧ 0 < st.num_tilts ∧ 0 < st.first_tilt_num_patterns then
      match st.exit_waves_attr with
      | none => RunOutcome.raised st PyErr.attributeErrorExitWaves
      | some w => RunOutcome.reachedForward st w
    else RunOutcome.noIterations st

/-- The probe guess stored on the instance when `preprocess` runs: `None`, a
`ComplexProbe` object (tracking whether its `_gpts` match the region of
interest and whether it has a built `_array`), or a plain array. -/
inductive ProbeGuess (α : Type) where
  | nothing
  | complexProbe (gptsMatch : Bool) (hasArray : Bool)
  | array (v : α)
  deriving DecidableEq

/-- The slice of instance state that decides the control flow of
`preprocess` (lines 286-617): the `_preprocessed` flag assigned `False` by
`__init__` (line 175), the stored object guess, probe guess and
`_object_padding_px`. -/
structure PreprocessState (α : Type) where
  preprocessed : Bool
  object_guess : Option α
  probe_guess : ProbeGuess α
  object_padding_px : Option (ℕ × ℕ)
  deriving DecidableEq

/-- Control-flow skeleton of `preprocess` (lines 286-617).  The per-tilt
numeric preprocessing (lines 329-443) and the numeric object / probe /
propagator initialization are total array computations, abstracted here by
the `newObject` and `newProbe` parameters.  The raise sites are: unpacking
`self._object_padding_px` when the stored object is `None` (line 447 — a
`TypeError` when the padding is also `None`), and the `ComplexProbe` gpts
check (line 525).  The method never reads `self._preprocessed`; it assigns it
`True` at line 615, stores the (re)built object (lines 446-459) and leaves
the probe as a plain array (lines 490-538). -/
def preprocess {α : Type} (st : PreprocessState α) (newObject newProbe : α) :
    Except PyErr (PreprocessState α) :=
  match st.object_guess, st.object_padding_px with
  | none, none => Except.error PyErr.typeError
  | _, _ =>
    match st.probe_guess with
    | ProbeGuess.complexProbe gptsMatch _ =>
        if gptsMatch then
          Except.ok { st with preprocessed := true, object_guess := some newObject,
                              probe_guess := ProbeGuess.array newProbe }
        else Except.error PyErr.valueErrorProbeGptsMismatch
    | _ =>
        Except.ok { st with preprocessed := true, object_guess := some newObject,
                            probe_guess := ProbeGuess.array newProbe }

/-- A freshly constructed instance (no object or probe guess supplied, some
padding given), used as a concrete input below. -/
def freshPreprocessState : PreprocessState ℕ :=
  ⟨false, none, ProbeGuess.nothing, some (6, 6)⟩

/-- C9 counterexample: on a freshly constructed instance the first
`preprocess` call succeeds and sets the `_preprocessed` flag, and a second
call on the resulting instance succeeds again (re-running the preprocessing)
instead of raising an error, refuting the claim that re-entry raises. -/
theorem C9_counterexample :
    preprocess freshPreprocessState 1 2 =
      Except.ok ⟨true, some 1, ProbeGuess.array 2, some (6, 6)⟩ ∧
    preprocess (⟨true, some 1, ProbeGuess.array 2, some (6, 6)⟩ : PreprocessState ℕ) 3 4 =
      Except.ok ⟨true, some 3, ProbeGuess.array 4, some (6, 6)⟩ := by
  exact ⟨rfl, rfl⟩

/-- C9 (amended): `preprocess()` sets the `_preprocessed` flag on a
successful call, but the flag is never consulted: a second call on the same
instance re-runs the preprocessing and succeeds (no error is raised). -/
theorem C9_second_preprocess_reruns {α : Type} (st : PreprocessState α)
    (x y : α) (st1 : PreprocessState α)
    (h : preprocess st x y = Except.ok st1) (x' y' : α) :
    st1.preprocessed = true ∧
    preprocess st1 x' y' =
      Except.ok { st1 with object_guess := some x', probe_guess := ProbeGuess.array y' } := by
  have hst1 : st1 = { st with preprocessed := true, object_guess := some x,
                              probe_guess := ProbeGuess.array y } := by
    unfold preprocess at h
    rcases hog : st.object_guess with _ | o <;>
      rcases hop : st.object_padding_px with _ | p <;>
        rcases hpg : st.probe_guess with _ | ⟨gm, ha⟩ | v <;>
          simp [hog, hop, hpg] at h <;>
            first
              | (exact h.symm)
              | (rcases gm with _ | _ <;> simp_all)
  subst hst1
  refine ⟨rfl, ?_⟩
  unfold preprocess
  rfl

/-- C9 amended-claim witness: the amended theorem applied to the concrete
fresh instance. -/
theorem C9_second_preprocess_reruns_witness :
    preprocess freshPreprocessState 1 2 =
      Except.ok (⟨true, some 1, ProbeGuess.array 2, some (6, 6)⟩ : PreprocessState ℕ) ∧
    ((⟨true, some 1, ProbeGuess.array 2, some (6, 6)⟩ : PreprocessState ℕ).preprocessed = true ∧
      preprocess (⟨true, some 1, ProbeGuess.array 2, some (6, 6)⟩ : PreprocessState ℕ) 3 4 =
        Except.ok ⟨true, some 3, ProbeGuess.array 4, some (6, 6)⟩) :=
  ⟨rfl, C9_second_preprocess_reruns freshPreprocessState 1 2 _ rfl 3 4⟩

/-- A concrete preprocessed instance state (payloads abstracted to `Unit`),
used as input for the closed theorems below: verbose on, `_exit_waves` never
assigned, no prior `error`, one tilt with four patterns. -/
def stUnit : ReconState Unit :=
  ⟨(), (), (), (), (), (), none, none, none, none, none, false, false, true, 4, 1, 4⟩

/-- Arguments triggering the C2 situation: a projection-set method (`DM_AP`,
in-range parameter 0.5) together with `max_batch_size=32`. -/
def c2Args : ReconArgs :=
  ⟨64, "DM_AP", RParam.scalar (1 / 2), some 32, 9 / 10, false, none⟩

/-- C2: with `verbose=False`, calling `reconstruct` with `max_batch_size` set
and the projection-set method `DM_AP` raises no configuration error at all:
the raise at line 1456 sits inside `if self._verbose:` (line 1453), so the
prologue completes normally — it seeds the RNG, initializes `_exit_waves`
and the probe support mask, and `reconstruct` proceeds into the main loop.
This refutes the claim that the `ValueError` is raised regardless of the
instance's verbose setting. -/
theorem C2_no_error_when_not_verbose :
    reconstructPrologue c2Args { stUnit with verbose := false } =
      PrologueOutcome.ok
        { stUnit with verbose := false, rng_seeded := true,
                      exit_waves_attr := some none, probe_support_mask_set := true }
        ⟨true, some (-(1 / 2)), some 1, some (3 / 2), none, some (RParam.scalar (1 / 2))⟩
        32 := by
  have h : validate_reconstruction_method ("DM_AP") (RParam.scalar (1 / 2)) (9 / 10) =
      Except.ok ⟨true, some (-(1 / 2)), some 1, some (3 / 2), none,
        some (RParam.scalar (1 / 2))⟩ := by
    simp [validate_reconstruction_method]
    norm_num
  simp only [reconstructPrologue, c2Args]
  rw [h]
  simp [stUnit]

/-- C6: for the named methods, an out-of-range scalar
`reconstruction_parameter` (α∉[0,1] for DM_AP, β∉[0,1] for RAAR, γ∉[0,2] for
RRR) makes `reconstruct` raise a `ValueError` in the dispatch block
(lines 1392-1417), before the batching / reset / mask code runs: the raised
outcome carries the instance state unchanged. -/
theorem C6_out_of_range_parameter_raises {α : Type} [DecidableEq α]
    (st : ReconState α) (args : ReconArgs) (p : ℚ)
    (h : (args.reconstruction_method = "DM_AP" ∨ args.reconstruction_method = "RAAR") ∧
           args.reconstruction_parameter = RParam.scalar p ∧ (p < 0 ∨ 1 < p) ∨
         args.reconstruction_method = "RRR" ∧
           args.reconstruction_parameter = RParam.scalar p ∧ (p < 0 ∨ 2 < p)) :
    ∃ e, (e = PyErr.valueErrorParameterRange01 ∨ e = PyErr.valueErrorParameterRange02) ∧
      reconstructPrologue args st = PrologueOutcome.raised st e := by
  rcases h with ⟨hm, hp, hrange⟩ | ⟨hm, hp, hrange⟩
  · refine ⟨PyErr.valueErrorParameterRange01, Or.inl rfl, ?_⟩
    rcases hm with hm | hm <;>
      simp [reconstructPrologue, validate_reconstruction_method, hm, hp, hrange]
  · refine ⟨PyErr.valueErrorParameterRange02, Or.inr rfl, ?_⟩
    simp [reconstructPrologue, validate_reconstruction_method, hm, hp, hrange]

/-- C6 witness: `DM_AP` with α = 1.5 raises before any state change. -/
theorem C6_out_of_range_parameter_raises_witness :
    ((("DM_AP" : String) = "DM_AP" ∨ ("DM_AP" : String) = "RAAR") ∧
       RParam.scalar (3 / 2) = RParam.scalar (3 / 2) ∧
       ((3 : ℚ) / 2 < 0 ∨ 1 < (3 : ℚ) / 2)) ∧
    ∃ e, (e = PyErr.valueErrorParameterRange01 ∨ e = PyErr.valueErrorParameterRange02) ∧
      reconstructPrologue
          { defaultReconArgs with reconstruction_method := "DM_AP",
                                  reconstruction_parameter := RParam.scalar (3 / 2) }
          stUnit =
        PrologueOutcome.raised stUnit e :=
  ⟨⟨Or.inl rfl, rfl, Or.inr (by norm_num)⟩,
    C6_out_of_range_parameter_raises stUnit _ (3 / 2)
      (Or.inl ⟨Or.inl rfl, rfl, Or.inr (by norm_num)⟩)⟩

/-- C7: for in-range parameters, the named presets produce exactly the
documented projection coefficients (lines 1388-1433): DM_AP(α) ↦
(-α, 1, 1+α); RAAR(β) ↦ (1-2β, β, 2); RRR(γ) ↦ (-γ, γ, 2); SUPERFLIP ↦
(0, 1, 2); and RAAR with β = 1 yields the same configuration (coefficients
(-1, 1, 2)) as DM_AP with α = 1. -/
theorem C7_named_presets (a b g s : ℚ)
    (ha : 0 ≤ a ∧ a ≤ 1) (hb : 0 ≤ b ∧ b ≤ 1) (hg : 0 ≤ g ∧ g ≤ 2) :
    validate_reconstruction_method ("DM_AP") (RParam.scalar a) s =
      Except.ok ⟨true, some (-a), some 1, some (1 + a), none, some (RParam.scalar a)⟩ ∧
    validate_reconstruction_method ("RAAR") (RParam.scalar b) s =
      Except.ok ⟨true, some (1 - 2 * b), some b, some 2, none, some (RParam.scalar b)⟩ ∧
    validate_reconstruction_method ("RRR") (RParam.scalar g) s =
      Except.ok ⟨true, some (-g), some g, some 2, none, some (RParam.scalar g)⟩ ∧
    validate_reconstruction_method ("SUPERFLIP") (RParam.scalar a) s =
      Except.ok ⟨true, some 0, some 1, some 2, none, none⟩ ∧
    validate_reconstruction_method ("RAAR") (RParam.scalar 1) s =
      Except.ok ⟨true, some (-1), some 1, some 2, none, some (RParam.scalar 1)⟩ ∧
    validate_reconstruction_method ("DM_AP") (RParam.scalar 1) s =
      Except.ok ⟨true, some (-1), some 1, some 2, none, some (RParam.scalar 1)⟩ := by
  have hna : ¬(a < 0 ∨ 1 < a) := by push_neg; exact ⟨ha.1, ha.2⟩
  have hnb : ¬(b < 0 ∨ 1 < b) := by push_neg; exact ⟨hb.1, hb.2⟩
  have hng : ¬(g < 0 ∨ 2 < g) := by push_neg; exact ⟨hg.1, hg.2⟩
  refine ⟨?_, ?_, ?_, ?_, ?_, ?_⟩ <;>
    simp [validate_reconstruction_method, hna, hnb, hng] <;> norm_num

/-- C7 witness: the preset mapping evaluated at α = β = 1/2, γ = 3/2. -/
theorem C7_named_presets_witness :
    ((0 ≤ (1 : ℚ) / 2 ∧ (1 : ℚ) / 2 ≤ 1) ∧ (0 ≤ (3 : ℚ) / 2 ∧ (3 : ℚ) / 2 ≤ 2)) ∧
    (validate_reconstruction_method ("DM_AP") (RParam.scalar (1 / 2)) (9 / 10) =
      Except.ok ⟨true, some (-(1 / 2)), some 1, some (1 + 1 / 2), none,
        some (RParam.scalar (1 / 2))⟩ ∧
    validate_reconstruction_method ("RAAR") (RParam.scalar (1 / 2)) (9 / 10) =
      Except.ok ⟨true, some (1 - 2 * (1 / 2)), some (1 / 2), some 2, none,
        some (RParam.scalar (1 / 2))⟩ ∧
    validate_reconstruction_method ("RRR") (RParam.scalar (3 / 2)) (9 / 10) =
      Except.ok ⟨true, some (-(3 / 2)), some (3 / 2), some 2, none,
        some (RParam.scalar (3 / 2))⟩ ∧
    validate_reconstruction_method ("SUPERFLIP") (RParam.scalar (1 / 2)) (9 / 10) =
      Except.ok ⟨true, some 0, some 1, some 2, none, none⟩ ∧
    validate_reconstruction_method ("RAAR") (RParam.scalar 1) (9 / 10) =
      Except.ok ⟨true, some (-1), some 1, some 2, none, some (RParam.scalar 1)⟩ ∧
    validate_reconstruction_method ("DM_AP") (RParam.scalar 1) (9 / 10) =
      Except.ok ⟨true, some (-1), some 1, some 2, none, some (RParam.scalar 1)⟩) :=
  ⟨⟨⟨by norm_num, by norm_num⟩, ⟨by norm_num, by norm_num⟩⟩,
    C7_named_presets (1 / 2) (1 / 2) (3 / 2) (9 / 10)
      ⟨by norm_num, by norm_num⟩ ⟨by norm_num, by norm_num⟩ ⟨by norm_num, by norm_num⟩⟩

/-- C10: on a preprocessed instance where `reconstruct` has never completed
(`_exit_waves` never assigned, no `error` attribute needed), calling
`reconstruct` with `reset=False` leaves `_exit_waves` unassigned — the
initialization at lines 1520/1532 runs only for `reset=True` or
`reset=None` — so the first `self._exit_waves` read at the `_forward` call
(line 1635) raises `AttributeError`. -/
theorem C10_reset_false_attribute_error {α : Type} [DecidableEq α]
    (st : ReconState α)
    (h1 : st.exit_waves_attr = none)
    (h2 : 0 < st.num_tilts) (h3 : 0 < st.first_tilt_num_patterns) :
    reconstructFirstExitWavesRead { defaultReconArgs with reset := some false } st =
      RunOutcome.raised { st with probe_support_mask_set := true }
        PyErr.attributeErrorExitWaves := by
  simp [reconstructFirstExitWavesRead, reconstructPrologue,
    validate_reconstruction_method, defaultReconArgs, h1, h2, h3]

/-- C10 witness: the `reset=False` attribute error on the concrete
preprocessed instance `stUnit`. -/
theorem C10_reset_false_attribute_error_witness :
    (stUnit.exit_waves_attr = none ∧ 0 < stUnit.num_tilts ∧
      0 < stUnit.first_tilt_num_patterns) ∧
    reconstructFirstExitWavesRead { defaultReconArgs with reset := some false } stUnit =
      RunOutcome.raised { stUnit with probe_support_mask_set := true }
        PyErr.attributeErrorExitWaves :=
  ⟨⟨rfl, by decide, by decide⟩,
    C10_reset_false_attribute_error stUnit rfl (by decide) (by decide)⟩

noncomputable section

/-- A complex-valued 2D array of shape `(n, m)`: one wavefunction field. -/
def Grid (n m : ℕ) : Type := Fin n → Fin m → ℂ

/-- numpy `np.fft.fft2`: the (unnormalized) two-dimensional discrete Fourier
transform, `F[k,l] = Σ_{a,b} f[a,b]·exp(-2πi·(k·a/n + l·b/m))`, modelled
exactly over `ℂ`. -/
def fft2 {n m : ℕ} (f : Grid n m) : Grid n m :=
  fun k l => ∑ a : Fin n, ∑ b : Fin m,
    f a b * Complex.exp (-(2 * (Real.pi : ℂ) * Complex.I) *
      (((k : ℕ) : ℂ) * ((a : ℕ) : ℂ) / ((n : ℕ) : ℂ) +
       ((l : ℕ) : ℂ) * ((b : ℕ) : ℂ) / ((m : ℕ) : ℂ)))

/-- numpy `np.fft.ifft2`: the inverse two-dimensional discrete Fourier
transform, with the `1/(n·m)` normalization on the inverse. -/
def ifft2 {n m : ℕ} (g : Grid n m) : Grid n m :=
  fun a b => (1 / (((n : ℕ) : ℂ) * ((m : ℕ) : ℂ))) * ∑ k : Fin n, ∑ l : Fin m,
    g k l * Complex.exp ((2 * (Real.pi : ℂ) * Complex.I) *
      (((k : ℕ) : ℂ) * ((a : ℕ) : ℂ) / ((n : ℕ) : ℂ) +
       ((l : ℕ) : ℂ) * ((b : ℕ) : ℂ) / ((m : ℕ) : ℂ)))

/-- `exp(2πi·d) = 1` for an integer `d`. -/
lemma cexp_two_pi_I_int (d : ℤ) :
    Complex.exp (2 * (Real.pi : ℂ) * Complex.I * d) = 1 := by
  have h := Complex.exp_int_mul_two_pi_mul_I d
  rwa [show ((d : ℂ) * (2 * (Real.pi : ℂ) * Complex.I)) =
      2 * (Real.pi : ℂ) * Complex.I * d by ring] at h

/-- Orthogonality of the discrete Fourier kernel: for `|d| < n`, the sum of
`exp(2πi·d·k/n)` over `k < n` is `n` when `d = 0` and `0` otherwise. -/
lemma sum_cexp_orth {n : ℕ} (hn : 0 < n) (d : ℤ) (hd : d.natAbs < n) :
    ∑ k : Fin n, Complex.exp (2 * (Real.pi : ℂ) * Complex.I * d * ((k : ℕ) : ℂ) / n) =
      if d = 0 then (n : ℂ) else 0 := by
  have hn0 : ((n : ℕ) : ℂ) ≠ 0 := Nat.cast_ne_zero.mpr hn.ne'
  set ζ : ℂ := Complex.exp (2 * (Real.pi : ℂ) * Complex.I * d / n) with hζ
  have hterm : ∀ k : Fin n,
      Complex.exp (2 * (Real.pi : ℂ) * Complex.I * d * ((k : ℕ) : ℂ) / n) = ζ ^ (k : ℕ) := by
    intro k
    rw [hζ, ← Complex.exp_nat_mul]
    congr 1
    ring
  rw [Finset.sum_congr rfl fun k _ => hterm k,
    Fin.sum_univ_eq_sum_range (fun i => ζ ^ i) n]
  by_cases hd0 : d = 0
  · subst hd0
    simp [hζ]
  · rw [if_neg hd0]
    have hζn : ζ ^ n = 1 := by
      rw [hζ, ← Complex.exp_nat_mul]
      rw [show ((n : ℕ) : ℂ) * (2 * (Real.pi : ℂ) * Complex.I * d / n) =
          2 * (Real.pi : ℂ) * Complex.I * d by field_simp]
      exact cexp_two_pi_I_int d
    have hζ1 : ζ ≠ 1 := by
      intro h1
      rw [hζ] at h1
      obtain ⟨j, hj⟩ := Complex.exp_eq_one_iff.mp h1
      rw [div_eq_iff hn0] at hj
      have h2 : (2 * (Real.pi : ℂ) * Complex.I) * (d : ℂ) =
          (2 * (Real.pi : ℂ) * Complex.I) * ((j : ℂ) * n) := by
        linear_combination hj
      have h3 : (d : ℂ) = (j : ℂ) * ((n : ℕ) : ℂ) :=
        mul_left_cancel₀ Complex.two_pi_I_ne_zero h2
      have h4 : d = j * (n : ℤ) := by exact_mod_cast h3
      have hj0 : j ≠ 0 := by
        rintro rfl
        simp at h4
        exact hd0 h4
      have h5 : (n : ℕ) ≤ d.natAbs := by
        rw [h4, Int.natAbs_mul]
        have h6 : 1 ≤ j.natAbs := Int.natAbs_pos.mpr hj0
        calc (n : ℕ) = 1 * (n : ℤ).natAbs := by simp
          _ ≤ j.natAbs * (n : ℤ).natAbs := Nat.mul_le_mul_right _ h6
      omega
    rw [geom_sum_eq hζ1 n, hζn]
    simp

/-- Interchange the outer and the inner index pairs of a quadruple sum. -/
lemma sum_swap_inner_outer {α β γ δ M : Type*} [Fintype α] [Fintype β] [Fintype γ]
    [Fintype δ] [AddCommMonoid M] (T : α → β → γ → δ → M) :
    ∑ k : α, ∑ l : β, ∑ a : γ, ∑ b : δ, T k l a b =
      ∑ a : γ, ∑ b : δ, ∑ k : α, ∑ l : β, T k l a b :=
  calc
    ∑ k : α, ∑ l : β, ∑ a : γ, ∑ b : δ, T k l a b
        = ∑ k : α, ∑ a : γ, ∑ l : β, ∑ b : δ, T k l a b :=
          Finset.sum_congr rfl fun _ _ => Finset.sum_comm
    _ = ∑ a : γ, ∑ k : α, ∑ l : β, ∑ b : δ, T k l a b := Finset.sum_comm
    _ = ∑ a : γ, ∑ k : α, ∑ b : δ, ∑ l : β, T k l a b :=
          Finset.sum_congr rfl fun _ _ => Finset.sum_congr rfl fun _ _ => Finset.sum_comm
    _ = ∑ a : γ, ∑ b : δ, ∑ k : α, ∑ l : β, T k l a b :=
          Finset.sum_congr rfl fun _ _ => Finset.sum_comm

/-- The inverse DFT inverts the DFT: `ifft2 (fft2 f) = f`, exactly. -/
lemma ifft2_fft2 {n m : ℕ} (hn : 0 < n) (hm : 0 < m) (f : Grid n m) :
    ifft2 (fft2 f) = f := by
  have hn0 : ((n : ℕ) : ℂ) ≠ 0 := Nat.cast_ne_zero.mpr hn.ne'
  have hm0 : ((m : ℕ) : ℂ) ≠ 0 := Nat.cast_ne_zero.mpr hm.ne'
  funext a b
  unfold ifft2 fft2
  have key : ∀ (k : Fin n) (l : Fin m),
      (∑ a1 : Fin n, ∑ b1 : Fin m, f a1 b1 *
        Complex.exp (-(2 * (Real.pi : ℂ) * Complex.I) *
          (((k : ℕ) : ℂ) * ((a1 : ℕ) : ℂ) / ((n : ℕ) : ℂ) +
           ((l : ℕ) : ℂ) * ((b1 : ℕ) : ℂ) / ((m : ℕ) : ℂ)))) *
        Complex.exp ((2 * (Real.pi : ℂ) * Complex.I) *
          (((k : ℕ) : ℂ) * ((a : ℕ) : ℂ) / ((n : ℕ) : ℂ) +
           ((l : ℕ) : ℂ) * ((b : ℕ) : ℂ) / ((m : ℕ) : ℂ))) =
      ∑ a1 : Fin n, ∑ b1 : Fin m, f a1 b1 *
        (Complex.exp (2 * (Real.pi : ℂ) * Complex.I *
            ((((a : ℕ) : ℤ) - ((a1 : ℕ) : ℤ) : ℤ) : ℂ) * ((k : ℕ) : ℂ) / n) *
         Complex.exp (2 * (Real.pi : ℂ) * Complex.I *
            ((((b : ℕ) : ℤ) - ((b1 : ℕ) : ℤ) : ℤ) : ℂ) * ((l : ℕ) : ℂ) / m)) := by
    intro k l
    rw [Finset.sum_mul]
    refine Finset.sum_congr rfl fun a1 _ => ?_
    rw [Finset.sum_mul]
    refine Finset.sum_congr rfl fun b1 _ => ?_
    rw [mul_assoc, ← Complex.exp_add, ← Complex.exp_add]
    congr 1
    push_cast
    ring_nf
  rw [Finset.sum_congr rfl fun k _ => Finset.sum_congr rfl fun l _ => key k l,
    sum_swap_inner_outer]
  have inner : ∀ (a1 : Fin n) (b1 : Fin m),
      (∑ k : Fin n, ∑ l : Fin m, f a1 b1 *
        (Complex.exp (2 * (Real.pi : ℂ) * Complex.I *
            ((((a : ℕ) : ℤ) - ((a1 : ℕ) : ℤ) : ℤ) : ℂ) * ((k : ℕ) : ℂ) / n) *
         Complex.exp (2 * (Real.pi : ℂ) * Complex.I *
            ((((b : ℕ) : ℤ) - ((b1 : ℕ) : ℤ) : ℤ) : ℂ) * ((l : ℕ) : ℂ) / m))) =
      f a1 b1 *
        (if (((a : ℕ) : ℤ) - ((a1 : ℕ) : ℤ) : ℤ) = 0 then ((n : ℕ) : ℂ) else 0) *
        (if (((b : ℕ) : ℤ) - ((b1 : ℕ) : ℤ) : ℤ) = 0 then ((m : ℕ) : ℂ) else 0) := by
    intro a1 b1
    have step1 : ∀ k : Fin n,
        (∑ l : Fin m, f a1 b1 *
          (Complex.exp (2 * (Real.pi : ℂ) * Complex.I *
              ((((a : ℕ) : ℤ) - ((a1 : ℕ) : ℤ) : ℤ) : ℂ) * ((k : ℕ) : ℂ) / n) *
           Complex.exp (2 * (Real.pi : ℂ) * Complex.I *
              ((((b : ℕ) : ℤ) - ((b1 : ℕ) : ℤ) : ℤ) : ℂ) * ((l : ℕ) : ℂ) / m))) =
        f a1 b1 * Complex.exp (2 * (Real.pi : ℂ) * Complex.I *
              ((((a : ℕ) : ℤ) - ((a1 : ℕ) : ℤ) : ℤ) : ℂ) * ((k : ℕ) : ℂ) / n) *
          ∑ l : Fin m, Complex.exp (2 * (Real.pi : ℂ) * Complex.I *
              ((((b : ℕ) : ℤ) - ((b1 : ℕ) : ℤ) : ℤ) : ℂ) * ((l : ℕ) : ℂ) / m) := by
      intro k
      rw [Finset.mul_sum]
      refine Finset.sum_congr rfl fun l _ => by ring
    rw [Finset.sum_congr rfl fun k _ => step1 k, ← Finset.sum_mul, ← Finset.mul_sum,
      sum_cexp_orth hn _ (by omega), sum_cexp_orth hm _ (by omega)]
  rw [Finset.sum_congr rfl fun a1 _ => Finset.sum_congr rfl fun b1 _ => inner a1 b1]
  rw [Finset.sum_congr rfl fun a1 _ =>
    Finset.sum_eq_single_of_mem b (Finset.mem_univ b)
      (fun b1 _ hb1 => by
        have hne : ¬((((b : ℕ) : ℤ) - ((b1 : ℕ) : ℤ) : ℤ) = 0) := by
          intro hc
          exact hb1 (Fin.ext (by omega))
        rw [if_neg hne]
        ring)]
  rw [Finset.sum_eq_single_of_mem a (Finset.mem_univ a)
    (fun a1 _ ha1 => by
      have hne : ¬((((a : ℕ) : ℤ) - ((a1 : ℕ) : ℤ) : ℤ) = 0) := by
        intro hc
        exact ha1 (Fin.ext (by omega))
      rw [if_neg hne]
      ring)]
  rw [if_pos (by omega), if_pos (by omega)]
  field_simp
  ring_nf

/-- The DFT inverts the inverse DFT: `fft2 (ifft2 g) = g`, exactly. -/
lemma fft2_ifft2 {n m : ℕ} (hn : 0 < n) (hm : 0 < m) (g : Grid n m) :
    fft2 (ifft2 g) = g := by
  have hn0 : ((n : ℕ) : ℂ) ≠ 0 := Nat.cast_ne_zero.mpr hn.ne'
  have hm0 : ((m : ℕ) : ℂ) ≠ 0 := Nat.cast_ne_zero.mpr hm.ne'
  funext k l
  unfold fft2 ifft2
  have pull : ∀ (a : Fin n) (b : Fin m),
      ((1 / (((n : ℕ) : ℂ) * ((m : ℕ) : ℂ))) * ∑ k1 : Fin n, ∑ l1 : Fin m,
        g k1 l1 * Complex.exp ((2 * (Real.pi : ℂ) * Complex.I) *
          (((k1 : ℕ) : ℂ) * ((a : ℕ) : ℂ) / ((n : ℕ) : ℂ) +
           ((l1 : ℕ) : ℂ) * ((b : ℕ) : ℂ) / ((m : ℕ) : ℂ)))) *
        Complex.exp (-(2 * (Real.pi : ℂ) * Complex.I) *
          (((k : ℕ) : ℂ) * ((a : ℕ) : ℂ) / ((n : ℕ) : ℂ) +
           ((l : ℕ) : ℂ) * ((b : ℕ) : ℂ) / ((m : ℕ) : ℂ))) =
      (1 / (((n : ℕ) : ℂ) * ((m : ℕ) : ℂ))) *
        ∑ k1 : Fin n, ∑ l1 : Fin m, g k1 l1 *
          (Complex.exp (2 * (Real.pi : ℂ) * Complex.I *
              ((((k1 : ℕ) : ℤ) - ((k : ℕ) : ℤ) : ℤ) : ℂ) * ((a : ℕ) : ℂ) / n) *
           Complex.exp (2 * (Real.pi : ℂ) * Complex.I *
              ((((l1 : ℕ) : ℤ) - ((l : ℕ) : ℤ) : ℤ) : ℂ) * ((b : ℕ) : ℂ) / m)) := by
    intro a b
    rw [mul_assoc]
    congr 1
    rw [Finset.sum_mul]
    refine Finset.sum_congr rfl fun k1 _ => ?_
    rw [Finset.sum_mul]
    refine Finset.sum_congr rfl fun l1 _ => ?_
    rw [mul_assoc, ← Complex.exp_add, ← Complex.exp_add]
    congr 1
    push_cast
    ring_nf
  rw [Finset.sum_congr rfl fun a _ => Finset.sum_congr rfl fun b _ => pull a b]
  rw [Finset.sum_congr rfl fun a _ => (Finset.mul_sum _ _ _).symm, ← Finset.mul_sum,
    sum_swap_inner_outer]
  have inner : ∀ (k1 : Fin n) (l1 : Fin m),
      (∑ a : Fin n, ∑ b : Fin m, g k1 l1 *
        (Complex.exp (2 * (Real.pi : ℂ) * Complex.I *
            ((((k1 : ℕ) : ℤ) - ((k : ℕ) : ℤ) : ℤ) : ℂ) * ((a : ℕ) : ℂ) / n) *
         Complex.exp (2 * (Real.pi : ℂ) * Complex.I *
            ((((l1 : ℕ) : ℤ) - ((l : ℕ) : ℤ) : ℤ) : ℂ) * ((b : ℕ) : ℂ) / m))) =
      g k1 l1 *
        (if (((k1 : ℕ) : ℤ) - ((k : ℕ) : ℤ) : ℤ) = 0 then ((n : ℕ) : ℂ) else 0) *
        (if (((l1 : ℕ) : ℤ) - ((l : ℕ) : ℤ) : ℤ) = 0 then ((m : ℕ) : ℂ) else 0) := by
    intro k1 l1
    have step1 : ∀ a : Fin n,
        (∑ b : Fin m, g k1 l1 *
          (Complex.exp (2 * (Real.pi : ℂ) * Complex.I *
              ((((k1 : ℕ) : ℤ) - ((k : ℕ) : ℤ) : ℤ) : ℂ) * ((a : ℕ) : ℂ) / n) *
           Complex.exp (2 * (Real.pi : ℂ) * Complex.I *
              ((((l1 : ℕ) : ℤ) - ((l : ℕ) : ℤ) : ℤ) : ℂ) * ((b : ℕ) : ℂ) / m))) =
        g k1 l1 * Complex.exp (2 * (Real.pi : ℂ) * Complex.I *
              ((((k1 : ℕ) : ℤ) - ((k : ℕ) : ℤ) : ℤ) : ℂ) * ((a : ℕ) : ℂ) / n) *
          ∑ b : Fin m, Complex.exp (2 * (Real.pi : ℂ) * Complex.I *
              ((((l1 : ℕ) : ℤ) - ((l : ℕ) : ℤ) : ℤ) : ℂ) * ((b : ℕ) : ℂ) / m) := by
      intro a
      rw [Finset.mul_sum]
      refine Finset.sum_congr rfl fun b _ => by ring
    rw [Finset.sum_congr rfl fun a _ => step1 a, ← Finset.sum_mul, ← Finset.mul_sum,
      sum_cexp_orth hn _ (by omega), sum_cexp_orth hm _ (by omega)]
  rw [Finset.sum_congr rfl fun k1 _ => Finset.sum_congr rfl fun l1 _ => inner k1 l1]
  rw [Finset.sum_congr rfl fun k1 _ =>
    Finset.sum_eq_single_of_mem l (Finset.mem_univ l)
      (fun l1 _ hl1 => by
        have hne : ¬((((l1 : ℕ) : ℤ) - ((l : ℕ) : ℤ) : ℤ) = 0) := by
          intro hc
          exact hl1 (Fin.ext (by omega))
        rw [if_neg hne]
        ring)]
  rw [Finset.sum_eq_single_of_mem k (Finset.mem_univ k)
    (fun k1 _ hk1 => by
      have hne : ¬((((k1 : ℕ) : ℤ) - ((k : ℕ) : ℤ) : ℤ) = 0) := by
        intro hc
        exact hk1 (Fin.ext (by omega))
      rw [if_neg hne]
      ring)]
  rw [if_pos (by omega), if_pos (by omega)]
  field_simp
  ring_nf

/-- numpy `np.fft.fftfreq(n, d)`: sample frequency `i/(n·d)` for
`i < (n+1)/2` (the nonnegative half) and `(i-n)/(n·d)` for the rest. -/
def fftfreq (n : ℕ) (d : ℝ) : Fin n → ℝ :=
  fun i => (if (i : ℕ) < (n + 1) / 2 then ((i : ℕ) : ℝ) else ((i : ℕ) : ℝ) - n) / (n * d)

/-- Modelled from the spec: `spatial_frequencies(gpts, sampling)` is imported
from `py4DSTEM.process.phase.utils`, whose definition is not part of this
snapshot.  Per the spec the propagator kernels are derived from "wavelength,
slice thickness, and spatial frequencies"; the spatial frequencies of an
`(n, m)` grid with sampling `(s0, s1)` are the standard FFT sample
frequencies `fftfreq(n, s0)` and `fftfreq(m, s1)` per axis. -/
def spatial_frequencies (n m : ℕ) (s0 s1 : ℝ) : (Fin n → ℝ) × (Fin m → ℝ) :=
  (fftfreq n s0, fftfreq m s1)

/-- The spatial-frequency magnitude `k = sqrt(kx² + ky²)` (line 212). -/
def kmag (n m : ℕ) (s0 s1 : ℝ) (i : Fin n) (j : Fin m) : ℝ :=
  Real.sqrt ((spatial_frequencies n m s0 s1).1 i ^ 2 +
    (spatial_frequencies n m s0 s1).2 j ^ 2)

/-- The 2/3-Nyquist cutoff `kcut = 1 / max(sampling) / 2 * 2 / 3`
(line 213). -/
def kcut (s0 s1 : ℝ) : ℝ :=
  1 / max s0 s1 / 2 * 2 / 3

/-- The antialias mask of `_precompute_propagator_arrays` (lines 211-218):
value 1 for `k ≤ kcut - 0.1`, the cosine rolloff
`(1 + cos(π(k - kcut + 0.1)/0.1))/2` for `kcut - 0.1 < k ≤ kcut`, and 0 for
`k > kcut`. -/
def antialias_mask (n m : ℕ) (s0 s1 : ℝ) (i : Fin n) (j : Fin m) : ℝ :=
  if kcut s0 s1 - 0.1 < kmag n m s0 s1 i j then
    (if kcut s0 s1 < kmag n m s0 s1 i j then 0
     else 0.5 * (1 + Real.cos (Real.pi * (kmag n m s0 s1 i j - kcut s0 s1 + 0.1) / 0.1)))
  else 1

/-- `electron_wavelength_angstrom` (`py4DSTEM/process/utils/utils.py`,
lines 47-54): relativistically corrected electron wavelength in Å. -/
def electron_wavelength_angstrom (E_eV : ℝ) : ℝ :=
  let m : ℝ := 9.109383e-31
  let e : ℝ := 1.602177e-19
  let c : ℝ := 299792458
  let h : ℝ := 6.62607e-34
  h / Real.sqrt (2 * m * e * E_eV) / Real.sqrt (1 + e * E_eV / 2 / m / c ^ 2) * 10 ^ 10

/-- `_precompute_propagator_arrays` (lines 177-232): for each slice thickness
`dz`, the Fresnel kernel
`exp(i·(-kx²·π·λ·dz))·exp(i·(-ky²·π·λ·dz))`, multiplied by the antialias
mask. -/
def precompute_propagator_arrays (n m : ℕ) (s0 s1 energy : ℝ)
    {T : ℕ} (slice_thicknesses : Fin T → ℝ) : Fin T → Grid n m :=
  fun t i j =>
    (Complex.exp (Complex.I *
        ((-((spatial_frequencies n m s0 s1).1 i ^ 2) * Real.pi *
            electron_wavelength_angstrom energy * slice_thicknesses t : ℝ) : ℂ)) *
      Complex.exp (Complex.I *
        ((-((spatial_frequencies n m s0 s1).2 j ^ 2) * Real.pi *
            electron_wavelength_angstrom energy * slice_thicknesses t : ℝ) : ℂ))) *
      ((antialias_mask n m s0 s1 i j : ℝ) : ℂ)

/-- `_propagate_array` (lines 234-252):
`ifft2(fft2(array) * propagator_array)`. -/
def propagate_array {n m : ℕ} (array : Grid n m) (propagator_array : Grid n m) : Grid n m :=
  ifft2 fun i j => fft2 array i j * propagator_array i j

/-- Elementwise complex conjugation of a grid (`xp.conj`). -/
def gridConj {n m : ℕ} (p : Grid n m) : Grid n m :=
  fun i j => (starRingEnd ℂ) (p i j)

/-- Unit-modulus phases cancel against their conjugates. -/
lemma exp_I_mul_cancel (x y : ℝ) :
    (Complex.exp (Complex.I * (x : ℂ)) * Complex.exp (Complex.I * (y : ℂ))) *
      (Complex.exp (-Complex.I * (x : ℂ)) * Complex.exp (-Complex.I * (y : ℂ))) = 1 := by
  rw [show (Complex.exp (Complex.I * (x : ℂ)) * Complex.exp (Complex.I * (y : ℂ))) *
      (Complex.exp (-Complex.I * (x : ℂ)) * Complex.exp (-Complex.I * (y : ℂ))) =
      (Complex.exp (Complex.I * (x : ℂ)) * Complex.exp (-Complex.I * (x : ℂ))) *
      (Complex.exp (Complex.I * (y : ℂ)) * Complex.exp (-Complex.I * (y : ℂ))) by ring]
  rw [← Complex.exp_add, ← Complex.exp_add,
    show Complex.I * (x : ℂ) + -Complex.I * (x : ℂ) = 0 by ring,
    show Complex.I * (y : ℂ) + -Complex.I * (y : ℂ) = 0 by ring,
    Complex.exp_zero, one_mul]

/-- A mask value of 1 makes a propagator entry cancel its own conjugate. -/
lemma phase_mask_self_conj (x y : ℝ) :
    ((Complex.exp (Complex.I * (x : ℂ)) * Complex.exp (Complex.I * (y : ℂ))) *
        (((1 : ℝ) : ℂ))) *
      (starRingEnd ℂ) ((Complex.exp (Complex.I * (x : ℂ)) *
        Complex.exp (Complex.I * (y : ℂ))) * (((1 : ℝ) : ℂ))) = 1 := by
  simp only [map_mul, ← Complex.exp_conj, Complex.conj_I, Complex.conj_ofReal,
    Complex.ofReal_one, mul_one]
  exact exp_I_mul_cancel x y

/-- C4 (amended): `propagate(propagate(f, k), conj(k)) = f` holds exactly for
fields whose spectrum is supported where the antialias mask equals 1, i.e.
whose DFT vanishes at every spatial frequency with magnitude above
`kcut - 0.1`; outside that passband the propagator's mask attenuates or
zeroes the spectrum, so the round trip is not the identity for arbitrary
fields. -/
theorem C4_roundtrip_on_passband {n m : ℕ} (hn : 0 < n) (hm : 0 < m)
    (s0 s1 energy : ℝ) {T : ℕ} (slice_thicknesses : Fin T → ℝ) (t : Fin T)
    (f : Grid n m)
    (hsupp : ∀ i j, kcut s0 s1 - 0.1 < kmag n m s0 s1 i j → fft2 f i j = 0) :
    propagate_array
      (propagate_array f (precompute_propagator_arrays n m s0 s1 energy slice_thicknesses t))
      (gridConj (precompute_propagator_arrays n m s0 s1 energy slice_thicknesses t)) = f := by
  unfold propagate_array
  rw [fft2_ifft2 hn hm]
  have hpt : (fun i j =>
      fft2 f i j * precompute_propagator_arrays n m s0 s1 energy slice_thicknesses t i j *
        gridConj (precompute_propagator_arrays n m s0 s1 energy slice_thicknesses t) i j) =
      fft2 f := by
    funext i j
    by_cases h : kcut s0 s1 - 0.1 < kmag n m s0 s1 i j
    · rw [hsupp i j h]
      ring
    · have hmask : antialias_mask n m s0 s1 i j = 1 := by
        unfold antialias_mask
        rw [if_neg h]
      have hPP : precompute_propagator_arrays n m s0 s1 energy slice_thicknesses t i j *
          gridConj (precompute_propagator_arrays n m s0 s1 energy slice_thicknesses t) i j
            = 1 := by
        unfold precompute_propagator_arrays gridConj
        beta_reduce
        rw [hmask]
        exact phase_mask_self_conj _ _
      calc fft2 f i j * precompute_propagator_arrays n m s0 s1 energy slice_thicknesses t i j *
            gridConj (precompute_propagator_arrays n m s0 s1 energy slice_thicknesses t) i j
          = fft2 f i j *
            (precompute_propagator_arrays n m s0 s1 energy slice_thicknesses t i j *
              gridConj (precompute_propagator_arrays n m s0 s1 energy slice_thicknesses t) i j) := by
            ring
        _ = fft2 f i j := by rw [hPP, mul_one]
  rw [show (fun i j => fft2 f i j *
      precompute_propagator_arrays n m s0 s1 energy slice_thicknesses t i j *
      gridConj (precompute_propagator_arrays n m s0 s1 energy slice_thicknesses t) i j) =
      fft2 f from hpt] at *
  rw [ifft2_fft2 hn hm]

/-- The 2-by-2 delta field (all spectral content, including frequencies
outside the antialias passband) used as the C4 counterexample input. -/
def deltaField : Grid 2 2 := fun i j => if i = 0 ∧ j = 0 then 1 else 0

/-- A concrete propagator kernel: 2-by-2 grid, 1 Å sampling, 300 kV, a single
slice of thickness 2 Å. -/
def smallPropagator : Grid 2 2 :=
  precompute_propagator_arrays 2 2 1 1 300000 (fun _ : Fin 1 => 2) 0

lemma fftfreq_two_zero : fftfreq 2 1 0 = 0 := by
  norm_num [fftfreq]

lemma fftfreq_two_one : fftfreq 2 1 1 = -(1 / 2) := by
  norm_num [fftfreq]

lemma kcut_one_one : kcut 1 1 = 1 / 3 := by
  norm_num [kcut]

lemma kmag_two_zero_zero : kmag 2 2 1 1 0 0 = 0 := by
  simp [kmag, spatial_frequencies, fftfreq_two_zero, Real.sqrt_zero]

lemma kmag_two_zero_one : kmag 2 2 1 1 0 1 = 1 / 2 := by
  rw [kmag, spatial_frequencies]
  rw [show (fftfreq 2 1 0 ^ 2 + fftfreq 2 1 1 ^ 2 : ℝ) = (1 / 2) ^ 2 by
    rw [fftfreq_two_zero, fftfreq_two_one]; norm_num]
  exact Real.sqrt_sq (by norm_num)

lemma kmag_two_one_zero : kmag 2 2 1 1 1 0 = 1 / 2 := by
  rw [kmag, spatial_frequencies]
  rw [show (fftfreq 2 1 1 ^ 2 + fftfreq 2 1 0 ^ 2 : ℝ) = (1 / 2) ^ 2 by
    rw [fftfreq_two_zero, fftfreq_two_one]; norm_num]
  exact Real.sqrt_sq (by norm_num)

lemma kmag_two_one_one_gt : 1 / 3 < kmag 2 2 1 1 1 1 := by
  rw [kmag, spatial_frequencies]
  rw [show (fftfreq 2 1 1 ^ 2 + fftfreq 2 1 1 ^ 2 : ℝ) = 1 / 2 by
    rw [fftfreq_two_one]; norm_num]
  rw [Real.lt_sqrt (by norm_num)]
  norm_num

lemma antialias_mask_00 : antialias_mask 2 2 1 1 0 0 = 1 := by
  rw [antialias_mask, kcut_one_one, kmag_two_zero_zero, if_neg (by norm_num)]

lemma antialias_mask_01 : antialias_mask 2 2 1 1 0 1 = 0 := by
  rw [antialias_mask, kcut_one_one, kmag_two_zero_one,
    if_pos (by norm_num), if_pos (by norm_num)]

lemma antialias_mask_10 : antialias_mask 2 2 1 1 1 0 = 0 := by
  rw [antialias_mask, kcut_one_one, kmag_two_one_zero,
    if_pos (by norm_num), if_pos (by norm_num)]

lemma antialias_mask_11 : antialias_mask 2 2 1 1 1 1 = 0 := by
  have h := kmag_two_one_one_gt
  rw [antialias_mask, kcut_one_one, if_pos (by nlinarith), if_pos (by nlinarith)]

/-- The concrete propagator evaluates to the indicator of the zero frequency:
the Fresnel phase at frequency `(0,0)` is `exp(0) = 1` and every other
frequency of the 2-by-2 grid lies beyond the antialias cutoff. -/
lemma smallPropagator_eq :
    smallPropagator = fun i j => if i = 0 ∧ j = 0 then (1 : ℂ) else 0 := by
  funext i j
  fin_cases i <;> fin_cases j <;>
    simp only [smallPropagator, precompute_propagator_arrays, spatial_frequencies,
      Fin.mk_zero, Fin.mk_one]
  · rw [antialias_mask_00, fftfreq_two_zero]
    norm_num
  · rw [antialias_mask_01]
    norm_num
  · rw [antialias_mask_10]
    norm_num
  · rw [antialias_mask_11]
    norm_num

lemma gridConj_smallPropagator : gridConj smallPropagator = smallPropagator := by
  funext i j
  rw [gridConj, smallPropagator_eq]
  by_cases h : i = 0 ∧ j = 0 <;> simp [h]

lemma fft2_deltaField : fft2 deltaField = fun _ _ => 1 := by
  funext k l
  rw [fft2]
  rw [Fin.sum_univ_two]
  rw [Fin.sum_univ_two, Fin.sum_univ_two]
  norm_num [deltaField]

lemma propagate_deltaField :
    propagate_array deltaField smallPropagator = fun _ _ => (1 / 4 : ℂ) := by
  funext a b
  rw [propagate_array, show (fun i j => fft2 deltaField i j * smallPropagator i j) =
      smallPropagator by
    funext i j
    rw [fft2_deltaField]
    exact one_mul _]
  rw [ifft2, smallPropagator_eq]
  rw [Fin.sum_univ_two]
  rw [Fin.sum_univ_two, Fin.sum_univ_two]
  norm_num

lemma roundtrip_deltaField_at_zero :
    propagate_array (propagate_array deltaField smallPropagator)
      (gridConj smallPropagator) 0 0 = 1 / 4 := by
  have hterm : ∀ k l : Fin 2,
      fft2 ((fun _ _ => (1 / 4 : ℂ)) : Grid 2 2) k l * smallPropagator k l =
      (if k = 0 ∧ l = 0 then fft2 ((fun _ _ => (1 / 4 : ℂ)) : Grid 2 2) 0 0 else 0) := by
    intro k l
    rw [smallPropagator_eq]
    beta_reduce
    by_cases h : k = 0 ∧ l = 0
    · rw [if_pos h, if_pos h, h.1, h.2, mul_one]
    · rw [if_neg h, if_neg h, mul_zero]
  have hf : fft2 ((fun _ _ => (1 / 4 : ℂ)) : Grid 2 2) 0 0 = 1 := by
    rw [fft2]
    rw [Fin.sum_univ_two]
    rw [Fin.sum_univ_two, Fin.sum_univ_two]
    norm_num
  rw [propagate_array, propagate_deltaField, gridConj_smallPropagator]
  rw [ifft2]
  rw [Fin.sum_univ_two]
  rw [Fin.sum_univ_two, Fin.sum_univ_two]
  simp only [hterm]
  simp only [hf]
  norm_num [Complex.exp_zero]

/-- C4 counterexample: for the concrete 2-by-2 propagator and the delta
field — whose spectrum extends beyond the antialias passband — the
conjugated round trip `propagate(propagate(f,k), conj(k))` returns the
constant field 1/4 instead of the original field, so the round-trip claim is
false for arbitrary complex input fields. -/
theorem C4_counterexample :
    propagate_array (propagate_array deltaField smallPropagator)
      (gridConj smallPropagator) ≠ deltaField := by
  intro h
  have h00 := congrFun (congrFun h 0) 0
  rw [roundtrip_deltaField_at_zero] at h00
  rw [show deltaField 0 0 = 1 from by norm_num [deltaField]] at h00
  norm_num at h00

/-- C4 amended-claim witness: the round-trip identity applied to the zero
field (whose spectrum trivially vanishes outside the passband) on the
concrete 2-by-2 propagator grid. -/
theorem C4_roundtrip_on_passband_witness :
    ((0 : ℕ) < 2 ∧ (∀ i j : Fin 2, kcut 1 1 - 0.1 < kmag 2 2 1 1 i j →
        fft2 (fun _ _ => (0 : ℂ)) i j = 0)) ∧
    propagate_array
      (propagate_array (fun _ _ => (0 : ℂ))
        (precompute_propagator_arrays 2 2 1 1 300000 (fun _ : Fin 1 => 2) 0))
      (gridConj (precompute_propagator_arrays 2 2 1 1 300000 (fun _ : Fin 1 => 2) 0)) =
      fun _ _ => (0 : ℂ) :=
  ⟨⟨by norm_num, fun i j _ => by simp [fft2]⟩,
    C4_roundtrip_on_passband (by norm_num) (by norm_num) 1 1 300000 _ 0 _
      (fun i j _ => by simp [fft2])⟩

/-- A batch of `B` complex 2D fields (array shape `(B, n, m)`). -/
def Batch (B n m : ℕ) : Type := Fin B → Grid n m

/-- A per-slice stack of batched fields (array shape `(S, B, n, m)`), as
produced by `_overlap_projection` and consumed by the Fourier projections
and the adjoints. -/
def WStack (S B n m : ℕ) : Type := Fin S → Batch B n m

/-- `xp.exp(1j * xp.angle(z))`: the unit phase factor of `z` (equal to 1 at
`z = 0`, since `angle(0) = 0` in numpy). -/
def phase_factor (z : ℂ) : ℂ := Complex.exp (Complex.I * (z.arg : ℂ))

/-- `xp.mean` of a real array of shape `(B, n, m)`. -/
def mean3 {B n m : ℕ} (f : Fin B → Fin n → Fin m → ℝ) : ℝ :=
  (∑ b : Fin B, ∑ i : Fin n, ∑ j : Fin m, f b i j) / (B * n * m)

/-- `_gradient_descent_fourier_projection` (lines 663-700): Fourier-transform
the last-slice overlap, compute the error
`mean(|amplitudes - |fft(overlap[-1])||²) / mean_diffraction_intensity`,
replace the Fourier magnitude by the measured amplitudes
(`modified_exit_wave`), and return
`exit_waves = -overlap.copy(); exit_waves[-1] += modified_exit_wave`
together with the error.  The stack has `S+1` slices so that `overlap[-1]`
is `overlap (Fin.last S)`. -/
def gradient_descent_fourier_projection {S B n m : ℕ}
    (mean_diffraction_intensity : ℝ)
    (amplitudes : Fin B → Fin n → Fin m → ℝ)
    (overlap : WStack (S + 1) B n m) :
    WStack (S + 1) B n m × ℝ :=
  let fourier_overlap : Batch B n m := fun b => fft2 (overlap (Fin.last S) b)
  let error : ℝ :=
    mean3 (fun b i j => |amplitudes b i j - Complex.abs (fourier_overlap b i j)| ^ 2) /
      mean_diffraction_intensity
  let modified_exit_wave : Batch B n m :=
    fun b => ifft2 fun i j => (amplitudes b i j : ℂ) * phase_factor (fourier_overlap b i j)
  let exit_waves : WStack (S + 1) B n m := fun s b i j => -(overlap s b i j)
  (Function.update exit_waves (Fin.last S)
    (fun b i j => exit_waves (Fin.last S) b i j + modified_exit_wave b i j), error)

/-- C5: the gradient-descent Fourier projection returns an exit-wave stack
whose last slice is `modified_wave - overlap[-1]` with
`modified_wave = ifft2(amplitudes * phase(fft2(overlap[-1])))`, and whose
every earlier slice is the negated current overlap. -/
theorem C5_gd_fourier_projection_exit_waves {S B n m : ℕ}
    (mu : ℝ) (amplitudes : Fin B → Fin n → Fin m → ℝ)
    (overlap : WStack (S + 1) B n m) :
    (∀ b i j,
      (gradient_descent_fourier_projection mu amplitudes overlap).1 (Fin.last S) b i j =
        ifft2 (fun i' j' => (amplitudes b i' j' : ℂ) *
          phase_factor (fft2 (overlap (Fin.last S) b) i' j')) i j -
        overlap (Fin.last S) b i j) ∧
    (∀ (s : Fin S) (b : Fin B) i j,
      (gradient_descent_fourier_projection mu amplitudes overlap).1 s.castSucc b i j =
        -(overlap s.castSucc b i j)) := by
  constructor
  · intro b i j
    simp only [gradient_descent_fourier_projection, Function.update_same]
    ring
  · intro s b i j
    simp only [gradient_descent_fourier_projection]
    rw [Function.update_noteq (Fin.castSucc_lt_last s).ne]

set_option linter.unusedVariables false in
/-- `_projection_sets_fourier_projection` (lines 702-770).  The function
derives `x = 1 - a - b` and `y = 1 - c` (lines 742-743), initializes
`exit_waves` to a copy of its second parameter when it is `None` (line 746),
Fourier-transforms `propagated_probes[-1]` (line 748), computes the
squared-amplitude error (lines 749-752) and the magnitude-projected factor
(lines 754-762) — and then its update line evaluates
`projection_a * overlap[-1]` (line 766).  No name `overlap` is bound in the
function (its second parameter is named `propagated_probes`) nor at module
scope, so the update raises `NameError` and no exit wave is ever returned.
The dead local computations are kept to mirror the source. -/
def projection_sets_fourier_projection {S B n m : ℕ}
    (mean_diffraction_intensity : ℝ)
    (amplitudes : Fin B → Fin n → Fin m → ℝ)
    (propagated_probes : WStack (S + 1) B n m)
    (exit_waves : Option (WStack (S + 1) B n m))
    (projection_a projection_b projection_c : ℝ) :
    Except PyErr (WStack (S + 1) B n m × ℝ) :=
  let projection_x : ℝ := 1 - projection_a - projection_b
  let projection_y : ℝ := 1 - projection_c
  let exit_waves : WStack (S + 1) B n m := exit_waves.getD propagated_probes
  let fourier_overlap : Batch B n m := fun b => fft2 (propagated_probes (Fin.last S) b)
  let error : ℝ :=
    mean3 (fun b i j => |amplitudes b i j ^ 2 - Complex.abs (fourier_overlap b i j) ^ 2|) /
      mean_diffraction_intensity
  let factor_to_be_projected : Batch B n m := fun b i j =>
    (projection_c : ℂ) * propagated_probes (Fin.last S) b i j +
      (projection_y : ℂ) * exit_waves (Fin.last S) b i j
  let fourier_projected_factor : Batch B n m := fun b => fft2 (factor_to_be_projected b)
  let projected_factor : Batch B n m := fun b => ifft2 fun i j =>
    (amplitudes b i j : ℂ) * phase_factor (fourier_projected_factor b i j)
  Except.error PyErr.nameErrorOverlap

/-- `_forward` (lines 772-833), taking the `_overlap_projection` results as
inputs (the overlap projection itself relies on `fft_shift` and patch-index
helpers that are not part of this snapshot).  The projection-set branch
(lines 818-826) passes `propagated_probes` — not `overlap` — into
`_projection_sets_fourier_projection`; the gradient-descent branch passes
`overlap`.  Returns `(propagated_probes, object_patches, overlap,
exit_waves, error)`. -/
def forward {S B n m : ℕ} (mean_diffraction_intensity : ℝ)
    (amplitudes : Fin B → Fin n → Fin m → ℝ)
    (propagated_probes object_patches overlap : WStack (S + 1) B n m)
    (exit_waves : Option (WStack (S + 1) B n m))
    (use_projection_scheme : Bool)
    (projection_a projection_b projection_c : ℝ) :
    Except PyErr
      (WStack (S + 1) B n m × WStack (S + 1) B n m × WStack (S + 1) B n m ×
        WStack (S + 1) B n m × ℝ) :=
  if use_projection_scheme then
    match projection_sets_fourier_projection mean_diffraction_intensity amplitudes
        propagated_probes exit_waves projection_a projection_b projection_c with
    | Except.error e => Except.error e
    | Except.ok (ew, err) =>
        Except.ok (propagated_probes, object_patches, overlap, ew, err)
  else
    let ge := gradient_descent_fourier_projection mean_diffraction_intensity
      amplitudes overlap
    Except.ok (propagated_probes, object_patches, overlap, ge.1, ge.2)

/-- C1 (the code evaluated on the claim's inputs): for every projection-set
forward call — any amplitudes, overlap-projection results, previous exit
wave and coefficients `(a, b, c)` — the call raises `NameError` at the
exit-wave update line instead of producing the claimed updated stack:
`_projection_sets_fourier_projection` reads the unbound name `overlap`, and
moreover receives the propagated probes where the claim's formula expects
the last-slice overlap. -/
theorem C1_projection_sets_forward_name_error {S B n m : ℕ}
    (mu : ℝ) (amplitudes : Fin B → Fin n → Fin m → ℝ)
    (propagated_probes object_patches overlap : WStack (S + 1) B n m)
    (exit_waves : Option (WStack (S + 1) B n m))
    (a b c : ℝ) :
    forward mu amplitudes propagated_probes object_patches overlap exit_waves true a b c =
      Except.error PyErr.nameErrorOverlap := rfl

/-- Maximum entry of a real grid with nonempty dimensions (`xp.max`). -/
def gridMax {n m : ℕ} (f : Fin (n + 1) → Fin (m + 1) → ℝ) : ℝ :=
  Finset.univ.sup' Finset.univ_nonempty fun p : Fin (n + 1) × Fin (m + 1) => f p.1 p.2

lemma gridMax_const {n m : ℕ} (c : ℝ) : gridMax (fun _ : Fin (n + 1) => fun _ : Fin (m + 1) => c) = c :=
  Finset.sup'_const _ c

/-- The base-class helper `_sum_overlapping_patches_bincounts` (position-
indexed scatter-add of overlapping patches into the object grid) is not part
of this snapshot; the adjoint operators are parameterized over it — in its
real-valued and complex-valued uses — mirroring the injected-backend style
of the source. -/
structure AdjointCtx (B n m X Y : ℕ) where
  bincounts_real : (Fin B → Fin n → Fin m → ℝ) → (Fin X → Fin Y → ℝ)
  bincounts_complex : (Fin B → Grid n m) → (Fin X → Fin Y → ℂ)

/-- The mutable state threaded through the `reversed(range(num_slices))`
loop of `_gradient_descent_adjoint`: the sliced object, the probe, and the
(mutated in place) propagated-probe and exit-wave stacks. -/
structure GDAdjointState (S B n m X Y : ℕ) where
  current_object : Fin S → Fin X → Fin Y → ℝ
  current_probe : Grid n m
  propagated_probes : WStack S B n m
  exit_waves : WStack S B n m

/-- One iteration of the `_gradient_descent_adjoint` loop body
(lines 878-938) at slice `s`: accumulate the object update
`step_size * (bincounts(Re(-i·conj(obj)·conj(probe)·exit_wave)) * probe_normalization)`
into `current_object[s]`; then, for `s > 0`, mutate
`probe += conj(obj)·exit_wave` (a view into `propagated_probes[s]`) and
accumulate the back-propagated residual into `exit_waves[s-1]`; for `s = 0`,
accumulate the probe update
`step_size * Σ_b conj(obj)·exit_wave · object_normalization` into
`current_probe` — with no `fix_probe` test anywhere in the body. -/
def gradient_descent_adjoint_step {S B n m X Y : ℕ}
    (ctx : AdjointCtx B (n + 1) (m + 1) (X + 1) (Y + 1))
    (object_patches : WStack S B (n + 1) (m + 1))
    (propagator_arrays : Fin S → Grid (n + 1) (m + 1))
    (step_size normalization_min : ℝ)
    (st : GDAdjointState S B (n + 1) (m + 1) (X + 1) (Y + 1)) (s : Fin S) :
    GDAdjointState S B (n + 1) (m + 1) (X + 1) (Y + 1) :=
  let obj := object_patches s
  let probe := st.propagated_probes s
  let exit_wave := st.exit_waves s
  let probe_normalization0 := ctx.bincounts_real fun b i j => Complex.abs (probe b i j) ^ 2
  let probe_normalization : Fin (X + 1) → Fin (Y + 1) → ℝ := fun x y =>
    1 / Real.sqrt (1e-16 + ((1 - normalization_min) * probe_normalization0 x y) ^ 2 +
      (normalization_min * gridMax probe_normalization0) ^ 2)
  let object_update := ctx.bincounts_real fun b i j =>
    (-Complex.I * (starRingEnd ℂ) (obj b i j) * (starRingEnd ℂ) (probe b i j) *
      exit_wave b i j).re
  let st := { st with
    current_object := Function.update st.current_object s
      (fun x y => st.current_object s x y +
        step_size * (object_update x y * probe_normalization x y)) }
  if h : 0 < (s : ℕ) then
    let probe' : Batch B (n + 1) (m + 1) := fun b i j =>
      probe b i j + (starRingEnd ℂ) (obj b i j) * exit_wave b i j
    let sprev : Fin S := ⟨(s : ℕ) - 1, by omega⟩
    { st with
      propagated_probes := Function.update st.propagated_probes s probe',
      exit_waves := Function.update st.exit_waves sprev (fun b i j =>
        st.exit_waves sprev b i j +
          propagate_array (probe' b) (gridConj (propagator_arrays sprev)) i j) }
  else
    let object_normalization0 : Fin (n + 1) → Fin (m + 1) → ℝ := fun i j =>
      ∑ b, Complex.abs (obj b i j) ^ 2
    let object_normalization : Fin (n + 1) → Fin (m + 1) → ℝ := fun i j =>
      1 / Real.sqrt (1e-16 + ((1 - normalization_min) * object_normalization0 i j) ^ 2 +
        (normalization_min * gridMax object_normalization0) ^ 2)
    { st with current_probe := fun i j => st.current_probe i j +
        (step_size : ℂ) * (∑ b, (starRingEnd ℂ) (obj b i j) * exit_wave b i j) *
          ((object_normalization i j : ℝ) : ℂ) }

set_option linter.unusedVariables false in
/-- `_gradient_descent_adjoint` (lines 835-940): fold the loop body over
slices `num_slices-1, ..., 0` and return the updated object and probe.  The
`fix_probe` parameter is accepted (and documented as "If True, probe will
not be updated") but never consulted anywhere in the body. -/
def gradient_descent_adjoint {S B n m X Y : ℕ}
    (ctx : AdjointCtx B (n + 1) (m + 1) (X + 1) (Y + 1))
    (current_object : Fin S → Fin (X + 1) → Fin (Y + 1) → ℝ)
    (current_probe : Grid (n + 1) (m + 1))
    (object_patches propagated_probes exit_waves : WStack S B (n + 1) (m + 1))
    (propagator_arrays : Fin S → Grid (n + 1) (m + 1))
    (step_size normalization_min : ℝ) (fix_probe : Bool) :
    (Fin S → Fin (X + 1) → Fin (Y + 1) → ℝ) × Grid (n + 1) (m + 1) :=
  let final := (List.finRange S).reverse.foldl
    (gradient_descent_adjoint_step ctx object_patches propagator_arrays step_size
      normalization_min)
    ⟨current_object, current_probe, propagated_probes, exit_waves⟩
  (final.current_object, final.current_probe)

/-- A concrete injected bincounts context on 1-by-1 grids for evaluating the
adjoint at a specific input. -/
def ctxOne : AdjointCtx 1 1 1 1 1 :=
  ⟨fun w x y => w 0 x y, fun w x y => w 0 x y⟩

/-- The all-ones single-slice, single-pattern, 1-by-1 stack. -/
def onesStack : WStack 1 1 1 1 := fun _ _ _ _ => 1

/-- C3 (the code evaluated at the failing input): with `fix_probe = True`, a
single slice, unit object patches and exit waves, a zero incoming probe,
`step_size = 0.9` and `normalization_min = 1`, the gradient-descent adjoint
still updates the probe — the returned probe differs from the unchanged
zero probe — because the body of `_gradient_descent_adjoint` never consults
its `fix_probe` parameter (contrary to its own docstring; the
projection-set adjoint does guard its probe branch with `if not fix_probe:`
at line 1006). -/
theorem C3_gd_adjoint_ignores_fix_probe :
    (gradient_descent_adjoint ctxOne (fun _ _ _ => 0) (fun _ _ => 0)
      onesStack onesStack onesStack (fun _ _ _ => 1) (9 / 10) 1 true).2 0 0 ≠ 0 := by
  have hlist : (List.finRange 1).reverse = [(0 : Fin 1)] := by decide
  rw [gradient_descent_adjoint]
  simp only [hlist, List.foldl_cons, List.foldl_nil]
  rw [gradient_descent_adjoint_step]
  simp only [Fin.val_zero, lt_irrefl, dite_false]
  simp only [onesStack, map_one, one_mul, Fin.sum_univ_one, one_pow]
  rw [gridMax_const]
  rw [zero_add]
  refine mul_ne_zero ?_ ?_
  · norm_num
  · rw [Complex.ofReal_ne_zero]
    positivity

/-- The state threaded through the `_projection_sets_adjoint` loop: unlike
the GD adjoint, the propagated probes are read but never mutated (the
probe update is an assignment to a local name, line 1019). -/
structure PSAdjointState (S B n m X Y : ℕ) where
  current_object : Fin S → Fin X → Fin Y → ℝ
  current_probe : Grid n m
  exit_waves : WStack S B n m

/-- One iteration of the `_projection_sets_adjoint` loop body
(lines 982-1040) at slice `s`: assign the object slice to
`Re(bincounts(-i·conj(obj)·conj(probe)·exit_wave) · probe_normalization)`;
then, only when `not fix_probe` (line 1006): for `s > 0`, replace
`exit_waves[s-1]` by the back-propagated
`conj(obj)·exit_wave·object_normalization` (per-batch normalization,
lines 1008-1022); for `s = 0`, assign the probe to
`Σ_b conj(obj)·exit_wave · object_normalization` (lines 1024-1040). -/
def projection_sets_adjoint_step {S B n m X Y : ℕ}
    (ctx : AdjointCtx B (n + 1) (m + 1) (X + 1) (Y + 1))
    (object_patches propagated_probes : WStack S B (n + 1) (m + 1))
    (propagator_arrays : Fin S → Grid (n + 1) (m + 1))
    (normalization_min : ℝ) (fix_probe : Bool)
    (st : PSAdjointState S B (n + 1) (m + 1) (X + 1) (Y + 1)) (s : Fin S) :
    PSAdjointState S B (n + 1) (m + 1) (X + 1) (Y + 1) :=
  let exit_wave := st.exit_waves s
  let probe := propagated_probes s
  let obj := object_patches s
  let probe_normalization0 := ctx.bincounts_real fun b i j => Complex.abs (probe b i j) ^ 2
  let probe_normalization : Fin (X + 1) → Fin (Y + 1) → ℝ := fun x y =>
    1 / Real.sqrt (1e-16 + ((1 - normalization_min) * probe_normalization0 x y) ^ 2 +
      (normalization_min * gridMax probe_normalization0) ^ 2)
  let st := { st with
    current_object := Function.update st.current_object s
      (fun x y => (ctx.bincounts_complex
          (fun b i j => -Complex.I * (starRingEnd ℂ) (obj b i j) *
            (starRingEnd ℂ) (probe b i j) * exit_wave b i j) x y *
        ((probe_normalization x y : ℝ) : ℂ)).re) }
  if fix_probe then st
  else if h : 0 < (s : ℕ) then
    let object_normalization0 : Fin B → Fin (n + 1) → Fin (m + 1) → ℝ := fun b i j =>
      Complex.abs (obj b i j) ^ 2
    let object_normalization : Fin B → Fin (n + 1) → Fin (m + 1) → ℝ := fun b i j =>
      1 / Real.sqrt (1e-16 + ((1 - normalization_min) * object_normalization0 b i j) ^ 2 +
        (normalization_min * gridMax (object_normalization0 b)) ^ 2)
    let probe' : Batch B (n + 1) (m + 1) := fun b i j =>
      (starRingEnd ℂ) (obj b i j) * exit_wave b i j *
        ((object_normalization b i j : ℝ) : ℂ)
    let sprev : Fin S := ⟨(s : ℕ) - 1, by omega⟩
    { st with
      exit_waves := Function.update st.exit_waves sprev
        (fun b => propagate_array (probe' b) (gridConj (propagator_arrays sprev))) }
  else
    let object_normalization0 : Fin (n + 1) → Fin (m + 1) → ℝ := fun i j =>
      ∑ b, Complex.abs (obj b i j) ^ 2
    let object_normalization : Fin (n + 1) → Fin (m + 1) → ℝ := fun i j =>
      1 / Real.sqrt (1e-16 + ((1 - normalization_min) * object_normalization0 i j) ^ 2 +
        (normalization_min * gridMax object_normalization0) ^ 2)
    { st with current_probe := fun i j =>
        (∑ b, (starRingEnd ℂ) (obj b i j) * exit_wave b i j) *
          ((object_normalization i j : ℝ) : ℂ) }

/-- `_projection_sets_adjoint` (lines 942-1042): fold the loop body over
slices `num_slices-1, ..., 0` and return the updated object and probe. -/
def projection_sets_adjoint {S B n m X Y : ℕ}
    (ctx : AdjointCtx B (n + 1) (m + 1) (X + 1) (Y + 1))
    (current_object : Fin S → Fin (X + 1) → Fin (Y + 1) → ℝ)
    (current_probe : Grid (n + 1) (m + 1))
    (object_patches propagated_probes exit_waves : WStack S B (n + 1) (m + 1))
    (propagator_arrays : Fin S → Grid (n + 1) (m + 1))
    (normalization_min : ℝ) (fix_probe : Bool) :
    (Fin S → Fin (X + 1) → Fin (Y + 1) → ℝ) × Grid (n + 1) (m + 1) :=
  let final := (List.finRange S).reverse.foldl
    (projection_sets_adjoint_step ctx object_patches propagated_probes propagator_arrays
      normalization_min fix_probe)
    ⟨current_object, current_probe, exit_waves⟩
  (final.current_object, final.current_probe)

lemma projection_sets_adjoint_step_fix_probe {S B n m X Y : ℕ}
    (ctx : AdjointCtx B (n + 1) (m + 1) (X + 1) (Y + 1))
    (object_patches propagated_probes : WStack S B (n + 1) (m + 1))
    (propagator_arrays : Fin S → Grid (n + 1) (m + 1))
    (normalization_min : ℝ)
    (st : PSAdjointState S B (n + 1) (m + 1) (X + 1) (Y + 1)) (s : Fin S) :
    (projection_sets_adjoint_step ctx object_patches propagated_probes propagator_arrays
      normalization_min true st s).current_probe = st.current_probe := by
  rw [projection_sets_adjoint_step]
  simp

/-- With `fix_probe = True` the projection-set adjoint leaves the probe
untouched: the guard at line 1006 skips the whole probe branch.  (The claim
C3 holds for this discipline and fails for the gradient-descent one.) -/
lemma projection_sets_adjoint_fix_probe_keeps_probe {S B n m X Y : ℕ}
    (ctx : AdjointCtx B (n + 1) (m + 1) (X + 1) (Y + 1))
    (current_object : Fin S → Fin (X + 1) → Fin (Y + 1) → ℝ)
    (current_probe : Grid (n + 1) (m + 1))
    (object_patches propagated_probes exit_waves : WStack S B (n + 1) (m + 1))
    (propagator_arrays : Fin S → Grid (n + 1) (m + 1))
    (normalization_min : ℝ) :
    (projection_sets_adjoint ctx current_object current_probe object_patches
      propagated_probes exit_waves propagator_arrays normalization_min true).2 =
      current_probe := by
  rw [projection_sets_adjoint]
  suffices h : ∀ (L : List (Fin S)) (st : PSAdjointState S B (n + 1) (m + 1) (X + 1) (Y + 1)),
      (L.foldl (projection_sets_adjoint_step ctx object_patches propagated_probes
        propagator_arrays normalization_min true) st).current_probe = st.current_probe by
    exact h _ _
  intro L
  induction L with
  | nil => intro st; rfl
  | cons a L ih =>
      intro st
      rw [List.foldl_cons, ih, projection_sets_adjoint_step_fix_probe]

/-- A real-valued 3D object array (shape `(Z, X, Y)`). -/
def Obj3 (Z X Y : ℕ) : Type := Fin Z → Fin X → Fin Y → ℝ

/-- A complex-valued 3D array (shape `(Z, X, Y)`). -/
def Cube (Z X Y : ℕ) : Type := Fin Z → Fin X → Fin Y → ℂ

/-- numpy `np.fft.fftn` on a 3D array: the unnormalized 3D DFT. -/
def fftn3 {Z X Y : ℕ} (f : Cube Z X Y) : Cube Z X Y :=
  fun kz kx ky => ∑ z : Fin Z, ∑ x : Fin X, ∑ y : Fin Y,
    f z x y * Complex.exp (-(2 * (Real.pi : ℂ) * Complex.I) *
      (((kz : ℕ) : ℂ) * ((z : ℕ) : ℂ) / ((Z : ℕ) : ℂ) +
       ((kx : ℕ) : ℂ) * ((x : ℕ) : ℂ) / ((X : ℕ) : ℂ) +
       ((ky : ℕ) : ℂ) * ((y : ℕ) : ℂ) / ((Y : ℕ) : ℂ)))

/-- numpy `np.fft.ifftn` on a 3D array: the inverse 3D DFT with `1/(Z·X·Y)`
normalization. -/
def ifftn3 {Z X Y : ℕ} (g : Cube Z X Y) : Cube Z X Y :=
  fun z x y => (1 / (((Z : ℕ) : ℂ) * ((X : ℕ) : ℂ) * ((Y : ℕ) : ℂ))) *
    ∑ kz : Fin Z, ∑ kx : Fin X, ∑ ky : Fin Y,
      g kz kx ky * Complex.exp ((2 * (Real.pi : ℂ) * Complex.I) *
        (((kz : ℕ) : ℂ) * ((z : ℕ) : ℂ) / ((Z : ℕ) : ℂ) +
         ((kx : ℕ) : ℂ) * ((x : ℕ) : ℂ) / ((X : ℕ) : ℂ) +
         ((ky : ℕ) : ℂ) * ((y : ℕ) : ℂ) / ((Y : ℕ) : ℂ)))

open Classical in
/-- `_object_butterworth_constraint` (lines 1152-1184): build the 3D
frequency-magnitude grid from `fftfreq` along each axis (with the source's
sampling choices `(sampling[1], sampling[0], sampling[1])`), form the
4th-order Butterworth envelope — the high-pass factor when `q_highpass` is
truthy, then the low-pass factor when `q_lowpass` is truthy (a `None` or a
zero cutoff skips the factor, as Python truthiness does) — and return the
real part of the filtered inverse transform. -/
def object_butterworth_constraint {Z X Y : ℕ} (s0 s1 : ℝ)
    (current_object : Obj3 Z X Y) (q_lowpass q_highpass : Option ℝ) : Obj3 Z X Y :=
  let qz := fftfreq Z s1
  let qx := fftfreq X s0
  let qy := fftfreq Y s1
  let qra : Fin Z → Fin X → Fin Y → ℝ := fun z x y =>
    Real.sqrt (qz z ^ 2 + qx x ^ 2 + qy y ^ 2)
  let env : Fin Z → Fin X → Fin Y → ℝ := fun z x y =>
    (if q_highpass.isSome ∧ q_highpass.getD 0 ≠ 0 then
        1 - 1 / (1 + (qra z x y / q_highpass.getD 0) ^ 4) else 1) *
    (if q_lowpass.isSome ∧ q_lowpass.getD 0 ≠ 0 then
        1 / (1 + (qra z x y / q_lowpass.getD 0) ^ 4) else 1)
  fun z x y =>
    (ifftn3 (fun kz kx ky =>
      fftn3 (fun a b c => ((current_object a b c : ℝ) : ℂ)) kz kx ky *
        ((env kz kx ky : ℝ) : ℂ)) z x y).re

/-- `_object_positivity_constraint` (lines 1111-1127):
`xp.maximum(current_object, 0.0)`, elementwise. -/
def object_positivity_constraint {Z X Y : ℕ} (current_object : Obj3 Z X Y) : Obj3 Z X Y :=
  fun z x y => max (current_object z x y) 0

/-- The injected helpers used by `_constraints`: `self._gaussian_filter`
(scipy / cupyx, injected in `__init__`, lines 123-138) and the probe- and
position-constraint methods defined in the base class, which is not part of
this snapshot. -/
structure ConstraintsCtx (Z X Y n m : ℕ) (Pos : Type) where
  gaussian_filter : Obj3 Z X Y → ℝ → Obj3 Z X Y
  probe_fourier_amplitude_constraint : Grid n m → Grid n m
  probe_finite_support_constraint : Grid n m → Grid n m
  probe_center_of_mass_constraint : Grid n m → Grid n m
  positions_center_of_mass_constraint : Pos → Pos
  positions_affine_transformation_constraint : Pos → Pos → Pos

/-- `_constraints` (lines 1186-1272), in source order: optional Gaussian
smoothing (lines 1240-1243), optional Butterworth filtering
(lines 1245-1250), unconditional positivity (line 1252), optional probe
Fourier-amplitude fix (lines 1254-1255), unconditional probe finite-support
mask (line 1257), optional probe center-of-mass fix (lines 1259-1260), and
the position constraints when positions are not fixed (lines 1262-1270). -/
def constraints {Z X Y n m : ℕ} {Pos : Type} (ctx : ConstraintsCtx Z X Y n m Pos)
    (s0 s1 : ℝ) (positions_px_initial : Pos)
    (current_object : Obj3 Z X Y) (current_probe : Grid n m) (current_positions : Pos)
    (fix_com fix_probe_fourier_amplitude fix_positions
      global_affine_transformation : Bool)
    (gaussian_filter : Bool) (gaussian_filter_sigma : ℝ)
    (butterworth_filter : Bool) (q_lowpass q_highpass : Option ℝ) :
    Obj3 Z X Y × Grid n m × Pos :=
  let current_object := if gaussian_filter then
      ctx.gaussian_filter current_object gaussian_filter_sigma else current_object
  let current_object := if butterworth_filter then
      object_butterworth_constraint s0 s1 current_object q_lowpass q_highpass
    else current_object
  let current_object := object_positivity_constraint current_object
  let current_probe := if fix_probe_fourier_amplitude then
      ctx.probe_fourier_amplitude_constraint current_probe else current_probe
  let current_probe := ctx.probe_finite_support_constraint current_probe
  let current_probe := if fix_com then
      ctx.probe_center_of_mass_constraint current_probe else current_probe
  let current_positions := if fix_positions then current_positions
    else
      let cpos := ctx.positions_center_of_mass_constraint current_positions
      if global_affine_transformation then
        ctx.positions_affine_transformation_constraint positions_px_initial cpos
      else cpos
  (current_object, current_probe, current_positions)

/-- C8: every `_constraints` pass applies the positivity constraint to the
object unconditionally, after the optional Gaussian smoothing and
Butterworth filtering; and the positivity constraint is the elementwise
maximum with zero — every output entry is nonnegative, every nonnegative
entry is unchanged, and every negative entry becomes exactly zero. -/
theorem C8_positivity_unconditional {Z X Y n m : ℕ} {Pos : Type}
    (ctx : ConstraintsCtx Z X Y n m Pos) (s0 s1 : ℝ) (positions_px_initial : Pos)
    (current_object : Obj3 Z X Y) (current_probe : Grid n m) (current_positions : Pos)
    (fix_com fix_probe_fourier_amplitude fix_positions
      global_affine_transformation gaussian_filter : Bool)
    (gaussian_filter_sigma : ℝ) (butterworth_filter : Bool)
    (q_lowpass q_highpass : Option ℝ) :
    ((constraints ctx s0 s1 positions_px_initial current_object current_probe
        current_positions fix_com fix_probe_fourier_amplitude fix_positions
        global_affine_transformation gaussian_filter gaussian_filter_sigma
        butterworth_filter q_lowpass q_highpass).1 =
      object_positivity_constraint
        (if butterworth_filter then
            object_butterworth_constraint s0 s1
              (if gaussian_filter then
                  ctx.gaussian_filter current_object gaussian_filter_sigma
                else current_object) q_lowpass q_highpass
          else if gaussian_filter then
            ctx.gaussian_filter current_object gaussian_filter_sigma
          else current_object)) ∧
    (∀ (o : Obj3 Z X Y) z x y, 0 ≤ object_positivity_constraint o z x y) ∧
    (∀ (o : Obj3 Z X Y) z x y, 0 ≤ o z x y →
      object_positivity_constraint o z x y = o z x y) ∧
    (∀ (o : Obj3 Z X Y) z x y, o z x y < 0 →
      object_positivity_constraint o z x y = 0) := by
  refine ⟨rfl, ?_, ?_, ?_⟩
  · intro o z x y
    exact le_max_right _ _
  · intro o z x y h
    exact max_eq_left h
  · intro o z x y h
    exact max_eq_right h.le

/-- A trivial concrete constraints context on 1-by-1-by-1 grids. -/
def ctx0 : ConstraintsCtx 1 1 1 1 1 Unit :=
  ⟨fun o _ => o, id, id, id, id, fun _ p => p⟩

/-- C8 witness: the positivity facts evaluated on a concrete all-negative
object — the negative entry is clipped to exactly zero — via the theorem
applied to the concrete constraints context. -/
theorem C8_positivity_unconditional_witness :
    ((fun _ _ _ => (-1 : ℝ)) : Obj3 1 1 1) 0 0 0 < 0 ∧
    object_positivity_constraint ((fun _ _ _ => (-1 : ℝ)) : Obj3 1 1 1) 0 0 0 = 0 :=
  ⟨by norm_num,
    (C8_positivity_unconditional ctx0 1 1 () (fun _ _ _ => (-1 : ℝ)) (fun _ _ => 0) ()
      false false false false false 0 false none none).2.2.2
      (fun _ _ _ => (-1 : ℝ)) 0 0 0 (by norm_num)⟩
